import Mathlib

/-
Verification of the process supervisor and connector initializers of the
go_web_scaffolding repository.

The supervisor (main.go) is modelled as a trace semantics: an Env records the
outcome of each fallible step (the error each init returns, the signal that is
eventually received, the result of the graceful-shutdown call), and mainTrace
computes the sequence of observable events main performs in that environment.
Deferred calls are modelled by an explicit stack that runs in LIFO order on a
normal return; a fatal log call (zap Fatal) terminates the process via os.Exit
and therefore discards the stack, exactly as in Go.
-/

/-- The two operating-system termination signals main registers interest in. -/
inductive Sig
  | SIGINT
  | SIGTERM
deriving DecidableEq, Repr

/-- Observable events performed by main, in program order. -/
inductive Event
  /-- fmt.Printf of an init failure followed by return. -/
  | printInitError (msg : String)
  | logDebug (msg : String)
  /-- routes.Setup() building the handler. -/
  | routesSetup
  /-- the goroutine calling srv.ListenAndServe has been started. -/
  | listenerStarted
  /-- log.Fatalf in the listener goroutine. -/
  | goroutineLogFatal (msg : String)
  /-- a termination signal was received from the quit channel. -/
  | signalReceived (s : Sig)
  | logInfo (msg : String)
  /-- srv.Shutdown invoked with a context deadline of the given seconds. -/
  | shutdownCalled (deadlineSeconds : Nat)
  /-- zap Fatal: the entry is logged and the process exits immediately. -/
  | logFatalExit (msg : String)
  /-- deferred cancel() of the shutdown context. -/
  | ctxCancel
  /-- deferred redis.Close(). -/
  | redisClosed
  /-- deferred mysql.Close(). -/
  | mysqlClosed
  /-- deferred zap.L().Sync(). -/
  | zapSync
deriving DecidableEq, Repr

/-- Environment of one run of main: the outcome of every fallible step.
none means the Go error was nil. -/
structure Env where
  settingsInitErr : Option String
  loggerInitErr : Option String
  mysqlInitErr : Option String
  redisInitErr : Option String
  /-- the termination signal eventually delivered on the quit channel. -/
  sig : Sig
  /-- result of srv.Shutdown(ctx). -/
  shutdownErr : Option String
deriving DecidableEq, Repr

/-- The signals passed to signal.Notify in main.go. -/
def notifySignals : List Sig := [Sig.SIGINT, Sig.SIGTERM]

/-- Trace of main.go, statement by statement. Each init failure prints the
error and returns, running the defers registered so far (LIFO). After all
inits succeed, the route handler is built, the listener goroutine started,
the main task blocks until a signal arrives, logs, and calls srv.Shutdown
with a 5-second deadline. A non-nil shutdown error is logged with zap Fatal,
which exits the process at once and skips every deferred call; otherwise main
returns normally and the deferred stack runs: cancel, redis.Close,
mysql.Close, zap Sync. -/
def mainTrace (env : Env) : List Event :=
  match env.settingsInitErr with
  | some e => [Event.printInitError e]
  | none =>
    match env.loggerInitErr with
    | some e => [Event.printInitError e]
    | none =>
      -- defer zap.L().Sync() is now registered
      Event.logDebug "logger init success..." ::
      match env.mysqlInitErr with
      | some e => [Event.printInitError e, Event.zapSync]
      | none =>
        -- defer mysql.Close() is now registered
        match env.redisInitErr with
        | some e => [Event.printInitError e, Event.mysqlClosed, Event.zapSync]
        | none =>
          -- defer redis.Close() is now registered
          Event.routesSetup ::
          Event.listenerStarted ::
          Event.signalReceived env.sig ::
          Event.logInfo "Shutdown Server ..." ::
          Event.shutdownCalled 5 ::
          match env.shutdownErr with
          | some e => [Event.logFatalExit e]
          | none => [Event.ctxCancel, Event.redisClosed, Event.mysqlClosed, Event.zapSync]

/-- The error net/http returns from ListenAndServe after a graceful Shutdown. -/
def ErrServerClosed : String := "http: Server closed"

/-- The listener goroutine in main.go: it calls log.Fatalf (terminating the
process) exactly when ListenAndServe returns a non-nil error other than
http.ErrServerClosed. -/
def listenerTask (res : Option String) : Option Event :=
  match res with
  | none => none
  | some e => if e = ErrServerClosed then none else some (Event.goroutineLogFatal e)

/-- A concrete environment in which srv.Shutdown fails with the
context-deadline-exceeded error. -/
def deadlineEnv : Env :=
  { settingsInitErr := none, loggerInitErr := none, mysqlInitErr := none,
    redisInitErr := none, sig := Sig.SIGINT,
    shutdownErr := some "context deadline exceeded" }

/-
Relational-store connector: dao/mysql/mysql.go.
-/

/-- The MySQL section of settings.Conf consumed by mysql.Init. -/
structure MySQLConfig where
  host : String
  port : Int
  user : String
  password : String
  dbName : String
  maxOpenConns : Int
  maxIdleConns : Int
deriving DecidableEq, Repr

/-- The DSN built by mysql.Init with fmt.Sprintf. -/
def dsn (cfg : MySQLConfig) : String :=
  cfg.user ++ ":" ++ cfg.password ++ "@tcp(" ++ cfg.host ++ ":" ++
    toString cfg.port ++ ")/" ++ cfg.dbName ++ "?charset=utf8mb4&parseTime=true"

/-- The package-scoped handle held by the db variable after a successful
sqlx.Connect. -/
inductive DBHandle
  | live
deriving DecidableEq, Repr

/-- Observable outcome of mysql.Init: the DSN handed to sqlx.Connect, the
returned error, the value of the package-scoped db variable, whether the
connect failure was logged, and the pool limits that were set. -/
structure MySQLInitResult where
  attemptedDsn : String
  err : Option String
  db : Option DBHandle
  loggedConnectError : Bool
  poolMaxOpen : Option Int
  poolMaxIdle : Option Int
deriving DecidableEq, Repr

/-- mysql.Init. connect models sqlx.Connect, returning the error it produces
for a given DSN (none for success). On error the function logs and returns
without touching the pool limits; on success it sets SetMaxOpenConns and
SetMaxIdleConns from the configuration and returns nil. -/
def mysqlInit (connect : String → Option String) (cfg : MySQLConfig) :
    MySQLInitResult :=
  match connect (dsn cfg) with
  | some e =>
    { attemptedDsn := dsn cfg, err := some e, db := none,
      loggedConnectError := true, poolMaxOpen := none, poolMaxIdle := none }
  | none =>
    { attemptedDsn := dsn cfg, err := none, db := some DBHandle.live,
      loggedConnectError := false, poolMaxOpen := some cfg.maxOpenConns,
      poolMaxIdle := some cfg.maxIdleConns }

/-- What a call to mysql.Close does, as a function of the package-scoped db
variable. -/
inductive CloseBehavior
  | closesHandle
  /-- db.Close() on a nil *sqlx.DB dereferences the nil pointer (the Close
  method is promoted through the embedded *sql.DB field) and panics. -/
  | nilDereferencePanic
deriving DecidableEq, Repr

/-- mysql.Close: it calls db.Close() unconditionally on the package-scoped
handle. -/
def mysqlClose (db : Option DBHandle) : CloseBehavior :=
  match db with
  | none => CloseBehavior.nilDereferencePanic
  | some _ => CloseBehavior.closesHandle

/-
Logger package: Init, getLogWriter, getEncoder (src/unnamed/part_000).
-/

/-- Lower-case a string, character by character. -/
def lowerStr (s : String) : String := String.mk (s.data.map Char.toLower)

/-- needle occurs as a contiguous run inside the list. -/
def listHasInfix (needle : List Char) : List Char → Bool
  | [] => needle.isEmpty
  | c :: t => needle.isPrefixOf (c :: t) || listHasInfix needle t

/-- strings.Contains. -/
def strHasSub (hay needle : String) : Bool := listHasInfix needle.data hay.data

/-- zapcore levels. -/
inductive LogLevel
  | debugLevel
  | infoLevel
  | warnLevel
  | errorLevel
  | dpanicLevel
  | panicLevel
  | fatalLevel
deriving DecidableEq, Repr

/-- One matching pass of zapcore Level UnmarshalText: the recognized
spellings of each level. -/
def levelOfText : String → Option LogLevel
  | "debug" => some LogLevel.debugLevel
  | "DEBUG" => some LogLevel.debugLevel
  | "info" => some LogLevel.infoLevel
  | "INFO" => some LogLevel.infoLevel
  | "" => some LogLevel.infoLevel
  | "warn" => some LogLevel.warnLevel
  | "WARN" => some LogLevel.warnLevel
  | "error" => some LogLevel.errorLevel
  | "ERROR" => some LogLevel.errorLevel
  | "dpanic" => some LogLevel.dpanicLevel
  | "DPANIC" => some LogLevel.dpanicLevel
  | "panic" => some LogLevel.panicLevel
  | "PANIC" => some LogLevel.panicLevel
  | "fatal" => some LogLevel.fatalLevel
  | "FATAL" => some LogLevel.fatalLevel
  | _ => none

/-- zapcore Level UnmarshalText: it tries the text as given, then lowered;
it errors when both passes fail. -/
def unmarshalLevel (s : String) : Option LogLevel :=
  match levelOfText s with
  | some l => some l
  | none => levelOfText (lowerStr s)

/-- The log section of settings.Conf consumed by logger Init. -/
structure LogConfig where
  level : String
  filename : String
  maxSize : Int
  maxBackups : Int
  maxAge : Int
deriving DecidableEq, Repr

/-- The lumberjack rotating-file writer built by getLogWriter. -/
structure RotateConfig where
  filename : String
  maxSize : Int
  maxBackups : Int
  maxAge : Int
deriving DecidableEq, Repr

/-- The logger installed by zap.ReplaceGlobals on success: JSON encoder with
the time key renamed to time, the rotating-file writer, the parsed level,
and zap.AddCaller. -/
structure GlobalLogger where
  encoderJson : Bool
  timeKey : String
  writer : RotateConfig
  level : LogLevel
  withCaller : Bool
deriving DecidableEq, Repr

/-- Outcome of logger Init: the returned error and the global logger that
zap.ReplaceGlobals installed, when it ran. -/
structure LoggerInitResult where
  err : Option String
  installedGlobal : Option GlobalLogger
deriving DecidableEq, Repr

/-- logger Init: builds the writer and encoder (both infallible), parses the
configured level, and returns the parse error when it fails; otherwise it
assembles the core, wraps it with AddCaller, installs it globally and
returns nil. -/
def loggerInit (cfg : LogConfig) : LoggerInitResult :=
  match unmarshalLevel cfg.level with
  | none =>
    { err := some ("unrecognized level: " ++ cfg.level), installedGlobal := none }
  | some lv =>
    { err := none,
      installedGlobal := some
        { encoderJson := true, timeKey := "time",
          writer :=
            { filename := cfg.filename, maxSize := cfg.maxSize,
              maxBackups := cfg.maxBackups, maxAge := cfg.maxAge },
          level := lv, withCaller := true } }

/-
GinRecovery middleware (src/unnamed/part_000).
-/

/-- The value recovered from a panic, as GinRecovery inspects it: either a
net.OpError (carrying the message of the wrapped os.SyscallError when the
inner error is one) or anything else. -/
inductive PanicVal
  | opError (syscallMsg : Option String)
  | other (desc : String)
deriving DecidableEq, Repr

/-- The brokenPipe test of GinRecovery: the panic value is a net.OpError
whose inner error is an os.SyscallError whose lowered message mentions a
broken pipe or a peer connection reset. -/
def isBrokenPipe : PanicVal → Bool
  | PanicVal.opError (some m) =>
    strHasSub (lowerStr m) "broken pipe" ||
      strHasSub (lowerStr m) "connection reset by peer"
  | PanicVal.opError none => false
  | PanicVal.other _ => false

/-- http.StatusInternalServerError. -/
def statusInternalServerError : Nat := 500

/-- What the downstream handler chain does on this request. -/
inductive HandlerOutcome
  | normal
  | panics (p : PanicVal)
deriving DecidableEq, Repr

/-- Observable effect of the GinRecovery middleware on one request. -/
structure RecoveryResult where
  /-- the panic escaped past the middleware. -/
  propagated : Bool
  /-- an error entry was logged with zap. -/
  logged : Bool
  /-- the log entry included the stack dump. -/
  stackLogged : Bool
  /-- c.Error was called to record the error on the context. -/
  errorRecorded : Bool
  statusWritten : Option Nat
  aborted : Bool
deriving DecidableEq, Repr

/-- GinRecovery: the deferred recover catches every panic from c.Next. A
broken-pipe panic is logged, recorded with c.Error and aborted without a
status, since the connection is dead; any other panic is logged (with the
stack dump when the stack flag is set) and aborted with status 500. -/
def ginRecovery (stack : Bool) (h : HandlerOutcome) : RecoveryResult :=
  match h with
  | HandlerOutcome.normal =>
    { propagated := false, logged := false, stackLogged := false,
      errorRecorded := false, statusWritten := none, aborted := false }
  | HandlerOutcome.panics p =>
    if isBrokenPipe p then
      { propagated := false, logged := true, stackLogged := false,
        errorRecorded := true, statusWritten := none, aborted := true }
    else
      { propagated := false, logged := true, stackLogged := stack,
        errorRecorded := false, statusWritten := some statusInternalServerError,
        aborted := true }

/-
Theorems.
-/

/-- C1 counterexample: in the concrete run where srv.Shutdown returns the
deadline-exceeded error, the fatal entry is logged but neither store
teardown event appears in the trace: zap Fatal exits the process before the
deferred Close calls can run. -/
theorem shutdown_deadline_claim_cex :
    Event.logFatalExit "context deadline exceeded" ∈ mainTrace deadlineEnv ∧
      Event.mysqlClosed ∉ mainTrace deadlineEnv ∧
      Event.redisClosed ∉ mainTrace deadlineEnv := by
  decide

/-- C1 (amended): when srv.Shutdown fails, main logs the failure as fatal
and the process exits immediately, so the trace ends at the fatal entry and
the deferred teardown of the database and cache connections never runs. -/
theorem shutdown_deadline_fatal_skips_teardown (sg : Sig) (e : String) :
    mainTrace ⟨none, none, none, none, sg, some e⟩ =
      [Event.logDebug "logger init success...", Event.routesSetup,
       Event.listenerStarted, Event.signalReceived sg,
       Event.logInfo "Shutdown Server ...", Event.shutdownCalled 5,
       Event.logFatalExit e] ∧
      Event.mysqlClosed ∉ mainTrace ⟨none, none, none, none, sg, some e⟩ ∧
      Event.redisClosed ∉ mainTrace ⟨none, none, none, none, sg, some e⟩ := by
  refine ⟨rfl, ?_, ?_⟩ <;> simp [mainTrace]

/-- C2: the listener goroutine is started exactly when configuration, logger,
database and cache initialization all succeeded, and each initialization
failure prints the underlying error (the trace then ends without the
listener ever being created). -/
theorem listener_starts_iff_inits_succeed (env : Env) :
    (Event.listenerStarted ∈ mainTrace env ↔
      env.settingsInitErr = none ∧ env.loggerInitErr = none ∧
        env.mysqlInitErr = none ∧ env.redisInitErr = none) ∧
      (∀ e, env.settingsInitErr = some e →
        Event.printInitError e ∈ mainTrace env) ∧
      (∀ e, env.settingsInitErr = none → env.loggerInitErr = some e →
        Event.printInitError e ∈ mainTrace env) ∧
      (∀ e, env.settingsInitErr = none → env.loggerInitErr = none →
        env.mysqlInitErr = some e → Event.printInitError e ∈ mainTrace env) ∧
      (∀ e, env.settingsInitErr = none → env.loggerInitErr = none →
        env.mysqlInitErr = none → env.redisInitErr = some e →
        Event.printInitError e ∈ mainTrace env) := by
  obtain ⟨s, l, m, r, sg, sh⟩ := env
  cases s <;> cases l <;> cases m <;> cases r <;> cases sh <;>
    simp [mainTrace]

/-- C3: in every run where all initializations succeed, once the termination
signal is received main logs and invokes srv.Shutdown with a deadline of
exactly 5 seconds, and no shutdown call with any other deadline ever
appears in the trace. -/
theorem shutdown_called_with_five_second_deadline (sg : Sig) (sh : Option String) :
    (∃ t, mainTrace ⟨none, none, none, none, sg, sh⟩ =
      [Event.logDebug "logger init success...", Event.routesSetup,
       Event.listenerStarted, Event.signalReceived sg,
       Event.logInfo "Shutdown Server ...", Event.shutdownCalled 5] ++ t) ∧
      ∀ d, Event.shutdownCalled d ∈ mainTrace ⟨none, none, none, none, sg, sh⟩ →
        d = 5 := by
  cases sh <;>
    exact ⟨⟨_, rfl⟩, by intro d hd; simp [mainTrace] at hd; exact hd⟩

/-- C4: main registers interest in exactly the two signals SIGINT and
SIGTERM, the received signal is one of them, and in the trace the event
immediately after the listener start is the signal receipt: the main task
does nothing else while blocked, and the shutdown call only appears after
the receipt. -/
theorem main_blocks_for_two_signals (sg : Sig) (sh : Option String) :
    notifySignals = [Sig.SIGINT, Sig.SIGTERM] ∧
      sg ∈ notifySignals ∧
      ∃ t, mainTrace ⟨none, none, none, none, sg, sh⟩ =
        [Event.logDebug "logger init success...", Event.routesSetup] ++
          Event.listenerStarted :: Event.signalReceived sg ::
            Event.logInfo "Shutdown Server ..." :: Event.shutdownCalled 5 :: t := by
  refine ⟨rfl, by cases sg <;> decide, ?_⟩
  cases sh <;> exact ⟨_, rfl⟩

/-- C5: on a normal shutdown (the graceful stop returns nil), the deferred
teardown of each store connection runs exactly once, after the shutdown
call. -/
theorem normal_shutdown_teardown_once_each (sg : Sig) :
    mainTrace ⟨none, none, none, none, sg, none⟩ =
      [Event.logDebug "logger init success...", Event.routesSetup,
       Event.listenerStarted, Event.signalReceived sg,
       Event.logInfo "Shutdown Server ...", Event.shutdownCalled 5,
       Event.ctxCancel, Event.redisClosed, Event.mysqlClosed, Event.zapSync] ∧
      (mainTrace ⟨none, none, none, none, sg, none⟩).count Event.mysqlClosed = 1 ∧
      (mainTrace ⟨none, none, none, none, sg, none⟩).count Event.redisClosed = 1 := by
  cases sg <;> exact ⟨rfl, by decide, by decide⟩

/-- C6: the listener goroutine treats a nil error and http.ErrServerClosed
as a graceful stop (no action), and any other error from ListenAndServe as
fatal, terminating the process with log.Fatalf. -/
theorem listener_task_fatal_unless_server_closed :
    listenerTask none = none ∧
      listenerTask (some ErrServerClosed) = none ∧
      ∀ e, e ≠ ErrServerClosed →
        listenerTask (some e) = some (Event.goroutineLogFatal e) := by
  refine ⟨rfl, by simp [listenerTask], ?_⟩
  intro e he
  simp [listenerTask, he]

/-- C7: mysql.Init hands sqlx.Connect a DSN assembled from exactly the
configured user, password, host, port and database name (changing only the
pool-size fields cannot change it); on success it returns nil and sets the
pool limits to the configured values; on a connect failure it returns that
error and touches neither limit. -/
theorem mysql_init_dsn_and_pool_limits (connect : String → Option String)
    (cfg : MySQLConfig) :
    (mysqlInit connect cfg).attemptedDsn =
      cfg.user ++ ":" ++ cfg.password ++ "@tcp(" ++ cfg.host ++ ":" ++
        toString cfg.port ++ ")/" ++ cfg.dbName ++
        "?charset=utf8mb4&parseTime=true" ∧
      (∀ cfg2 : MySQLConfig, cfg2.host = cfg.host → cfg2.port = cfg.port →
        cfg2.user = cfg.user → cfg2.password = cfg.password →
        cfg2.dbName = cfg.dbName →
        (mysqlInit connect cfg2).attemptedDsn = (mysqlInit connect cfg).attemptedDsn) ∧
      (connect (dsn cfg) = none →
        (mysqlInit connect cfg).err = none ∧
          (mysqlInit connect cfg).poolMaxOpen = some cfg.maxOpenConns ∧
          (mysqlInit connect cfg).poolMaxIdle = some cfg.maxIdleConns) ∧
      (∀ e, connect (dsn cfg) = some e →
        (mysqlInit connect cfg).err = some e ∧
          (mysqlInit connect cfg).loggedConnectError = true ∧
          (mysqlInit connect cfg).poolMaxOpen = none ∧
          (mysqlInit connect cfg).poolMaxIdle = none) := by
  have hA : ∀ c : MySQLConfig, (mysqlInit connect c).attemptedDsn = dsn c := by
    intro c
    cases h : connect (dsn c) <;> simp [mysqlInit, h]
  refine ⟨(hA cfg).trans rfl, ?_, ?_, ?_⟩
  case _ =>
    intro cfg2 h1 h2 h3 h4 h5
    rw [hA cfg2, hA cfg]
    simp [dsn, h1, h2, h3, h4, h5]
  case _ =>
    intro h
    simp [mysqlInit, h]
  case _ =>
    intro e h
    simp [mysqlInit, h]

/-- C8: mysql.Close dereferences the package-scoped handle unconditionally:
with no handle stored (no successful Init has run) it panics on the nil
pointer, and with a live handle it closes it; a successful mysql.Init
always leaves a live handle behind, so a prior successful Init makes the
call safe. -/
theorem mysql_close_nil_handle_panics :
    mysqlClose none = CloseBehavior.nilDereferencePanic ∧
      (∀ h, mysqlClose (some h) = CloseBehavior.closesHandle) ∧
      ∀ (connect : String → Option String) (cfg : MySQLConfig),
        (mysqlInit connect cfg).err = none →
          (mysqlInit connect cfg).db = some DBHandle.live := by
  refine ⟨rfl, fun h => rfl, ?_⟩
  intro connect cfg h
  cases hc : connect (dsn cfg) <;> simp [mysqlInit, hc] at h ⊢

/-- C9: the recover installed by GinRecovery stops every panic from the
downstream handlers. A panic that is not a broken-pipe network error is
logged and the request aborted with status 500; a broken-pipe panic is
logged, recorded on the context with c.Error and aborted with no status
written. In no case does the panic propagate past the middleware. -/
theorem gin_recovery_handles_panics (stack : Bool) (p : PanicVal) :
    (ginRecovery stack (HandlerOutcome.panics p)).propagated = false ∧
      (isBrokenPipe p = false →
        ginRecovery stack (HandlerOutcome.panics p) =
          { propagated := false, logged := true, stackLogged := stack,
            errorRecorded := false, statusWritten := some 500, aborted := true }) ∧
      (isBrokenPipe p = true →
        ginRecovery stack (HandlerOutcome.panics p) =
          { propagated := false, logged := true, stackLogged := false,
            errorRecorded := true, statusWritten := none, aborted := true }) := by
  refine ⟨?_, ?_, ?_⟩
  case _ => cases hb : isBrokenPipe p <;> simp [ginRecovery, hb]
  case _ =>
    intro hb
    simp [ginRecovery, hb, statusInternalServerError]
  case _ =>
    intro hb
    simp [ginRecovery, hb]

/-- C10: logger Init fails exactly when the configured level string is not
recognized by the level parser (tried verbatim, then lowered); on success
it installs, as the process-wide global logger, the JSON-encoded logger
writing through the rotating-file writer built from the configured
filename, size, backup and age limits, at the parsed level; on failure
nothing is installed. -/
theorem logger_init_err_iff_bad_level (cfg : LogConfig) :
    ((loggerInit cfg).err = none ↔ (unmarshalLevel cfg.level).isSome) ∧
      (∀ lv, unmarshalLevel cfg.level = some lv →
        (loggerInit cfg).installedGlobal = some
          { encoderJson := true, timeKey := "time",
            writer :=
              { filename := cfg.filename, maxSize := cfg.maxSize,
                maxBackups := cfg.maxBackups, maxAge := cfg.maxAge },
            level := lv, withCaller := true }) ∧
      ((loggerInit cfg).installedGlobal = none ↔ (loggerInit cfg).err ≠ none) := by
  cases h : unmarshalLevel cfg.level <;> simp [loggerInit, h]
